import Mathlib

/-!
Verification of the failover decision engine in `src/server_ping_test.py`.

The Python module is embedded shallowly: `ping_host` is modelled by a fixed
reachability assignment `reach : String → Bool` (one run, one assignment),
the two configuration values `NAS_IP` / `OPENWRT_IP` by `Option String`
(`None` or a string, with Python truthiness), file contents by `List Char`,
and the persisted run files (`last_run_status.txt`, `notify_count.txt`) by a
`RunState` record.  The interpreter's exit status is not a field of the
model: `main` never exits explicitly, but exceptions can escape it — file
IO errors during reconciliation are uncaught, and the email notifier's
`load_env_config` raises `SystemExit`, which `except Exception` does not
catch — so fallible paths are modelled by explicit outcome values
(`DirOutcome`, `allDownBranch`) instead of a single exit code.
-/

namespace NASBridge

/-- Python truthiness of an optional string: `None` and `""` are falsy. -/
def pyTruthy : Option String → Bool
  | none => false
  | some s => !s.isEmpty

/-- `CANDIDATE_IP_LIST = [ip for ip in [NAS_IP, OPENWRT_IP] if ip]`
(line 61): the priority-ordered candidate list, NAS first. -/
def CANDIDATE_IP_LIST (nas ow : Option String) : List String :=
  (([nas, ow]).filterMap id).filter (fun s => !s.isEmpty)

/-- `get_first_reachable_ip_with_priority` (lines 88-95): prefer the NAS
address when it is set and reachable, then the OpenWrt address, else `None`. -/
def get_first_reachable_ip_with_priority (reach : String → Bool)
    (nas ow : Option String) : Option String :=
  if pyTruthy nas && reach (nas.getD "") then nas
  else if pyTruthy ow && reach (ow.getD "") then ow
  else none

/-- `print_ip_reachability` (lines 178-192): returns `all_unreachable`,
which starts `True` and is cleared by any reachable candidate. -/
def print_ip_reachability (reach : String → Bool) (ips : List String) : Bool :=
  ips.all (fun ip => !reach ip)

/-- The persisted run files: `last_run_status.txt` (read by
`get_last_run_status`, defaulting to reachable) and `notify_count.txt`
(read by `get_notify_count`, defaulting to 0). -/
structure RunState where
  lastReachable : Bool
  notifyCount : Nat
deriving DecidableEq

/-- Observable outcome of one invocation of `main` (lines 194-276). -/
structure RunOutput where
  recoveryNotified : Bool
  allDownNotified : Bool
  reconciled : Bool
  finalState : RunState
deriving DecidableEq

/-- `main` (lines 194-276): probe all candidates, persist the current
status, send a recovery notification on a DOWN→UP edge, and in the all-down
case either dispatch (counter `< 2`) or only log (counter `≥ 2`), writing
the incremented counter either way; on an UP run reset the counter to 0 and
proceed to config reconciliation.  Per-channel dispatch behaviour,
including the exceptions a channel can raise, is modelled separately by
`allDownBranch`. -/
def server_ping_main (reach : String → Bool) (nas ow : Option String)
    (st : RunState) : RunOutput :=
  let ips := CANDIDATE_IP_LIST nas ow
  let all_unreachable := print_ip_reachability reach ips
  let recovery := !st.lastReachable && !all_unreachable
  if all_unreachable then
    if st.notifyCount ≥ 2 then
      ⟨recovery, false, false, ⟨!all_unreachable, st.notifyCount + 1⟩⟩
    else
      ⟨recovery, true, false, ⟨!all_unreachable, st.notifyCount + 1⟩⟩
  else
    ⟨recovery, false, true, ⟨!all_unreachable, 0⟩⟩

/-- Candidate pair used by the scenario claims: NAS first, router second. -/
def nasA : Option String := some "10.0.0.5"

/-- The lower-priority (router / OpenWrt) candidate of the scenarios. -/
def owA : Option String := some "10.0.0.1"

/-- Reachability assignment in which no address answers. -/
def downReach : String → Bool := fun _ => false

/-- Reachability assignment in which exactly the NAS address answers. -/
def upReach : String → Bool := fun ip => ip == "10.0.0.5"

/-- First of three consecutive all-down runs, from the default state. -/
def c2r1 : RunOutput := server_ping_main downReach nasA owA ⟨true, 0⟩

/-- Second consecutive all-down run. -/
def c2r2 : RunOutput := server_ping_main downReach nasA owA c2r1.finalState

/-- Third consecutive all-down run. -/
def c2r3 : RunOutput := server_ping_main downReach nasA owA c2r2.finalState

/-- First run of the DOWN, DOWN, UP, UP sequence, from the default state. -/
def c3r1 : RunOutput := server_ping_main downReach nasA owA ⟨true, 0⟩

/-- Second (DOWN) run of the DOWN, DOWN, UP, UP sequence. -/
def c3r2 : RunOutput := server_ping_main downReach nasA owA c3r1.finalState

/-- Third run (first UP) of the DOWN, DOWN, UP, UP sequence. -/
def c3r3 : RunOutput := server_ping_main upReach nasA owA c3r2.finalState

/-- Fourth run (second UP) of the DOWN, DOWN, UP, UP sequence. -/
def c3r4 : RunOutput := server_ping_main upReach nasA owA c3r3.finalState

/-- Claim C1: for every reachability assignment and every configured
candidate pair, `get_first_reachable_ip_with_priority` returns exactly the
first reachable entry of the priority-ordered `CANDIDATE_IP_LIST` (NAS
before OPENWRT), and returns `none` precisely when no candidate is
reachable. -/
theorem select_returns_lowest_priority_reachable (reach : String → Bool)
    (nas ow : Option String) :
    get_first_reachable_ip_with_priority reach nas ow
        = (CANDIDATE_IP_LIST nas ow).find? reach
      ∧ (get_first_reachable_ip_with_priority reach nas ow = none
        ↔ ∀ ip ∈ CANDIDATE_IP_LIST nas ow, reach ip = false) := by
  have h : get_first_reachable_ip_with_priority reach nas ow
      = (CANDIDATE_IP_LIST nas ow).find? reach := by
    rcases nas with _ | s <;> rcases ow with _ | t
    · simp [get_first_reachable_ip_with_priority, CANDIDATE_IP_LIST, pyTruthy]
    · by_cases ht : t.isEmpty <;> by_cases h2 : reach t <;>
        simp [get_first_reachable_ip_with_priority, CANDIDATE_IP_LIST, pyTruthy,
          ht, h2, List.find?]
    · by_cases hs : s.isEmpty <;> by_cases h1 : reach s <;>
        simp [get_first_reachable_ip_with_priority, CANDIDATE_IP_LIST, pyTruthy,
          hs, h1, List.find?]
    · by_cases hs : s.isEmpty <;> by_cases ht : t.isEmpty <;>
        by_cases h1 : reach s <;> by_cases h2 : reach t <;>
        simp [get_first_reachable_ip_with_priority, CANDIDATE_IP_LIST, pyTruthy,
          hs, ht, h1, h2, List.find?]
  refine ⟨h, ?_⟩
  rw [h, List.find?_eq_none]
  simp

/-- Claim C2: with the hard-coded threshold 2 and a zero counter, three
consecutive all-down runs dispatch the all-down notification on exactly the
first two runs, only log on the third, and write the incremented counter
(1, 2, 3) on every run. -/
theorem three_all_down_runs_notify_twice :
    c2r1.allDownNotified = true ∧ c2r2.allDownNotified = true
      ∧ c2r3.allDownNotified = false
      ∧ c2r1.finalState.notifyCount = 1
      ∧ c2r2.finalState.notifyCount = 2
      ∧ c2r3.finalState.notifyCount = 3 := by
  decide

/-- Claim C3: over the run sequence DOWN, DOWN, UP, UP a recovery
notification is dispatched only on the first UP run, and that run resets
the persisted notification counter to 0. -/
theorem one_recovery_per_down_episode :
    c3r1.recoveryNotified = false ∧ c3r2.recoveryNotified = false
      ∧ c3r3.recoveryNotified = true ∧ c3r4.recoveryNotified = false
      ∧ c3r3.finalState.notifyCount = 0 := by
  decide

/-- Claim C10: any run in which some candidate is reachable (the
`all_unreachable` flag computed by `print_ip_reachability` is false) ends
with the persisted notification counter written as 0, whatever the prior
state. -/
theorem up_run_resets_notify_count (reach : String → Bool)
    (nas ow : Option String) (st : RunState)
    (h : print_ip_reachability reach (CANDIDATE_IP_LIST nas ow) = false) :
    (server_ping_main reach nas ow st).finalState.notifyCount = 0 := by
  simp [server_ping_main, h]

/-- Concrete instance of `up_run_resets_notify_count`: an UP→UP run with a
stale counter of 5 still ends with counter 0. -/
theorem up_run_resets_notify_count_witness :
    print_ip_reachability (fun _ => true)
        (CANDIDATE_IP_LIST (some "10.0.0.5") none) = false
      ∧ (server_ping_main (fun _ => true) (some "10.0.0.5") none
          ⟨false, 5⟩).finalState.notifyCount = 0 :=
  ⟨by decide,
   up_run_resets_notify_count (fun _ => true) (some "10.0.0.5") none
     ⟨false, 5⟩ (by decide)⟩

/-- Python `filename.endswith(suffix)`: suffix test on the character
sequence. -/
def pyEndswith (s suffix : String) : Bool :=
  suffix.data.reverse.isPrefixOf s.data.reverse

/-- Python `\s` on ASCII text: the whitespace class of the `re` module. -/
def pyWs (c : Char) : Bool :=
  c = ' ' || c = '\t' || c = '\n' || c = '\r'
    || c = Char.ofNat 11 || c = Char.ofNat 12

/-- The character class `[\d.]` of the proxy-pass pattern. -/
def ipChar (c : Char) : Bool := c.isDigit || c = '.'

/-- Consume a literal character sequence, returning the remainder. -/
def stripLit : List Char → List Char → Option (List Char)
  | [], l => some l
  | _ :: _, [] => none
  | p :: ps, c :: cs => if p = c then stripLit ps cs else none

/-- The `https?://` part of the pattern: literal `http`, optional `s`,
then `://`.  Returns the matched scheme text and the remainder. -/
def parseScheme (l : List Char) : Option (List Char × List Char) :=
  match stripLit "http".toList l with
  | none => none
  | some r =>
    match stripLit "s://".toList r with
    | some r2 => some ("https://".toList, r2)
    | none =>
      match stripLit "://".toList r with
      | some r2 => some ("http://".toList, r2)
      | none => none

/-- One match of `(proxy_pass\s+https?://)([\d.]+)(:[\d]+)?`:
group 1 (`pre`), group 2 (`ip`), group 3 or `""` (`port`). -/
structure PMatch where
  pre : List Char
  ip : List Char
  port : List Char
deriving DecidableEq

/-- Attempt the proxy-pass pattern at the head of `l`, greedily, exactly as
the regular expression does.  Returns the match and the text after it. -/
def matchAt (l : List Char) : Option (PMatch × List Char) :=
  match stripLit "proxy_pass".toList l with
  | none => none
  | some r0 =>
    let ws := r0.takeWhile pyWs
    if ws.isEmpty then none
    else
      match parseScheme (r0.dropWhile pyWs) with
      | none => none
      | some (scheme, r2) =>
        let ip := r2.takeWhile ipChar
        if ip.isEmpty then none
        else
          let r3 := r2.dropWhile ipChar
          match r3 with
          | ':' :: r4 =>
            let ds := r4.takeWhile Char.isDigit
            if ds.isEmpty then
              some (⟨"proxy_pass".toList ++ ws ++ scheme, ip, []⟩, r3)
            else
              some (⟨"proxy_pass".toList ++ ws ++ scheme, ip, ':' :: ds⟩,
                r4.dropWhile Char.isDigit)
          | _ => some (⟨"proxy_pass".toList ++ ws ++ scheme, ip, []⟩, r3)

/-- Fuelled scan implementing `re.finditer`: leftmost, non-overlapping
matches.  Fuel bounds the number of scan steps; each step advances by at
least one character, so `l.length` fuel always suffices. -/
def findMatchesF : Nat → List Char → List PMatch
  | 0, _ => []
  | _ + 1, [] => []
  | fuel + 1, c :: rest =>
    match matchAt (c :: rest) with
    | some (m, rest2) => m :: findMatchesF fuel rest2
    | none => findMatchesF fuel rest

/-- `list(re.finditer(pattern, conf))` (line 119). -/
def findMatches (l : List Char) : List PMatch := findMatchesF l.length l

/-- Fuelled Python `str.replace`: scan left to right, replacing every
non-overlapping occurrence of `pat`. -/
def replaceAllF : Nat → List Char → List Char → List Char → List Char
  | 0, s, _, _ => s
  | fuel + 1, s, pat, rep =>
    match s with
    | [] => []
    | c :: rest =>
      if pat.isPrefixOf (c :: rest) then
        rep ++ replaceAllF fuel ((c :: rest).drop pat.length) pat rep
      else
        c :: replaceAllF fuel rest pat rep

/-- `new_conf.replace(old, new)` (line 134): a whole-string substring
replacement, not anchored to any match position. -/
def pyReplace (s pat rep : List Char) : List Char := replaceAllF s.length s pat rep

/-- Result of processing one configuration file (lines 122-139). -/
structure ConfResult where
  newConf : List Char
  changed : Bool
  switchToNas : Bool
  switchToOpenwrt : Bool
deriving DecidableEq

/-- Body of the `for m in matches` loop (lines 124-139): if the rule's
address is unreachable, or it is the OpenWrt address while the NAS is set
and reachable, rewrite via `str.replace` on the whole evolving content and
record the switch flags. -/
def processMatch (reach : String → Bool) (nas ow : Option String)
    (acc : ConfResult) (m : PMatch) : ConfResult :=
  let ipStr := String.mk m.ip
  if !reach ipStr || (ow == some ipStr && pyTruthy nas && reach (nas.getD "")) then
    match get_first_reachable_ip_with_priority reach nas ow with
    | none => acc
    | some newIp =>
      if newIp == ipStr then acc
      else
        ⟨pyReplace acc.newConf (m.pre ++ m.ip ++ m.port)
            (m.pre ++ newIp.toList ++ m.port),
          true,
          acc.switchToNas || nas == some newIp,
          acc.switchToOpenwrt || (!(nas == some newIp) && ow == some newIp)⟩
  else acc

/-- Lines 115-139 for a single file: collect the matches of the original
content, then fold the rewrite loop over them. -/
def check_file (reach : String → Bool) (nas ow : Option String)
    (conf : List Char) : ConfResult :=
  (findMatches conf).foldl (processMatch reach nas ow) ⟨conf, false, false, false⟩

/-- Per-file outcome inside the directory loop. -/
structure FileOutcome where
  name : String
  content : List Char
  wrote : Bool
  stn : Bool
  sto : Bool
deriving DecidableEq

/-- One iteration of the `for filename in os.listdir` loop (lines
108-143): non-`.conf` entries are skipped untouched; `.conf` files are
rewritten and written back when changed. -/
def processDirFile (reach : String → Bool) (nas ow : Option String)
    (f : String × List Char) : FileOutcome :=
  if pyEndswith f.1 ".conf" then
    let r := check_file reach nas ow f.2
    ⟨f.1, r.newConf, r.changed, r.switchToNas, r.switchToOpenwrt⟩
  else ⟨f.1, f.2, false, false, false⟩

/-- Outcome of one `check_and_replace_nginx_proxy_ips_in_dir` run:
the final directory contents, the files written, how many times the
`nginx -s reload` command ran, and the device name carried by the switch
notification message (sent once per run when set). -/
structure DirResult where
  files : List (String × List Char)
  writes : List String
  reloadCount : Nat
  switchMsg : Option String
deriving DecidableEq

/-- `check_and_replace_nginx_proxy_ips_in_dir` (lines 97-176): guard on the
directory, process every file, reload once if any file changed, and send
one switch notification naming NAS when `switch_to_nas` is set, else
OPENWRT when `switch_to_openwrt` is set. -/
def check_and_replace_nginx_proxy_ips_in_dir (reach : String → Bool)
    (nas ow : Option String) (dirOk : Bool)
    (files : List (String × List Char)) : DirResult :=
  if dirOk then
    let outs := files.map (processDirFile reach nas ow)
    let stn := outs.any (fun o => o.stn)
    let sto := outs.any (fun o => o.sto)
    ⟨outs.map (fun o => (o.name, o.content)),
      (outs.filter (fun o => o.wrote)).map (fun o => o.name),
      if outs.any (fun o => o.wrote) then 1 else 0,
      if stn || sto then some (if stn then "NAS" else "OPENWRT") else none⟩
  else ⟨files, [], 0, none⟩

/-- A file with two forward directives: the second target address extends
the first (`10.0.0.1` is a proper prefix of `10.0.0.10`). -/
def conf45 : List Char :=
  "proxy_pass http://10.0.0.1;\nproxy_pass http://10.0.0.10:80;\n".toList

/-- Reachability for the blind-replace scenario: the NAS (`10.9.9.9`), the
OpenWrt address (`10.0.0.1`) and the unrelated upstream `10.0.0.10` all
answer; the mangled address `10.9.9.90` does not. -/
def reach45 : String → Bool :=
  fun ip => ip == "10.9.9.9" || ip == "10.0.0.1" || ip == "10.0.0.10"

/-- NAS address configured for the blind-replace scenario. -/
def nas45 : Option String := some "10.9.9.9"

/-- OpenWrt address configured for the blind-replace scenario. -/
def ow45 : Option String := some "10.0.0.1"

/-- First reconciliation run over the blind-replace scenario directory. -/
def run45a : DirResult :=
  check_and_replace_nginx_proxy_ips_in_dir reach45 nas45 ow45 true
    [("a.conf", conf45)]

/-- Second reconciliation run, immediately after the first, with the same
reachability assignment. -/
def run45b : DirResult :=
  check_and_replace_nginx_proxy_ips_in_dir reach45 nas45 ow45 true run45a.files

/-- Claim C4 (code bug): rewriting the first rule (OpenWrt target, NAS
reachable and preferred) uses `str.replace` over the whole file, which also
rewrites the prefix-sharing *second* directive: its address `10.0.0.10`
becomes the mangled `10.9.9.90`, even though its own rule was never
selected for rewriting (its address is reachable and is not the OpenWrt
address).  Text belonging to the second rule is therefore not
byte-identical after the first rule's rewrite. -/
theorem blind_replace_corrupts_other_directive :
    findMatches conf45
        = [⟨"proxy_pass http://".toList, "10.0.0.1".toList, []⟩,
           ⟨"proxy_pass http://".toList, "10.0.0.10".toList, ":80".toList⟩]
      ∧ reach45 "10.0.0.10" = true
      ∧ (check_file reach45 nas45 ow45 conf45).newConf
        = "proxy_pass http://10.9.9.9;\nproxy_pass http://10.9.9.90:80;\n".toList := by
  decide

/-- Claim C5 (code bug): reconciliation is not idempotent.  On the
blind-replace scenario the first run writes `a.conf` (corrupting the second
directive's address into the unreachable `10.9.9.90`), so the immediately
following run with the same reachability assignment writes the file again,
reloads again, and re-sends a switch notification, instead of performing
zero writes and zero reloads. -/
theorem reconciliation_not_idempotent :
    run45a.writes = ["a.conf"] ∧ run45a.reloadCount = 1
      ∧ run45b.writes = ["a.conf"] ∧ run45b.reloadCount = 1
      ∧ run45b.switchMsg = some "NAS" := by
  decide

/-- Reachability for the preemption scenario: both the NAS (`10.0.0.5`)
and the router (`10.0.0.1`) answer. -/
def reach6 : String → Bool := fun ip => ip == "10.0.0.5" || ip == "10.0.0.1"

/-- Preemption scenario, first rule file: targets the router with a port. -/
def conf6a : List Char :=
  "server \x7b\n    proxy_pass http://10.0.0.1:8080;\n\x7d\n".toList

/-- Preemption scenario, second rule file: https target, no port. -/
def conf6b : List Char := "proxy_pass https://10.0.0.1;\n".toList

/-- Claim C6: with both candidates reachable and the config targeting the
lower-priority router, reconciliation rewrites every rule to the NAS
address (preserving scheme and port), writes both changed files, runs the
reload exactly once for the whole run, and produces one switch
notification naming NAS. -/
theorem preemption_switches_to_nas_with_single_reload :
    check_and_replace_nginx_proxy_ips_in_dir reach6
        (some "10.0.0.5") (some "10.0.0.1") true
        [("a.conf", conf6a), ("b.conf", conf6b)]
      = ⟨[("a.conf", "server \x7b\n    proxy_pass http://10.0.0.5:8080;\n\x7d\n".toList),
          ("b.conf", "proxy_pass https://10.0.0.5;\n".toList)],
         ["a.conf", "b.conf"], 1, some "NAS"⟩ := by
  decide

/-- Behaviour of one configured notification channel during dispatch:
the send returns success, returns a failure value (as `TelegramNotifier`
and `EmailNotifier.send_message` do on transport errors), or an exception
is raised (as the notifier constructors do on missing channel
configuration). -/
inductive ChanBehavior where
  | ok : ChanBehavior
  | sendFailed : ChanBehavior
  | raised : ChanBehavior
deriving DecidableEq

/-- The `for notify_type in notify_types` loop inside the `try` block
(lines 243-260): channels are attempted in order, and a raised exception
aborts the loop.  Returns the channels actually attempted and whether an
exception escaped the loop. -/
def attemptChannels : List ChanBehavior → List ChanBehavior × Bool
  | [] => ([], false)
  | c :: rest =>
    if c = ChanBehavior.raised then ([c], true)
    else
      let r := attemptChannels rest
      (c :: r.1, r.2)

/-- The all-down branch of `main` (lines 230-266): when the counter has
reached 2 the run only logs and writes the incremented counter; otherwise
it dispatches over the channels and — only if no exception was raised,
since the counter write sits inside the same `try` after the loop — writes
the incremented counter.  `none` means `notify_count.txt` was left
unchanged. -/
def allDownBranch (count : Nat) (channels : List ChanBehavior) :
    List ChanBehavior × Option Nat :=
  if count ≥ 2 then ([], some (count + 1))
  else
    let r := attemptChannels channels
    (r.1, if r.2 then none else some (count + 1))

/-- Claim C8 (counterexample): on an all-down run with counter 0 and two
configured channels of which the first raises (for example a notifier
constructor failing on missing channel configuration), the second channel
is never attempted and the counter file is not written — not the
([both attempted], counter written as 1) the claim requires. -/
theorem raising_channel_skips_rest_and_counter :
    allDownBranch 0 [ChanBehavior.raised, ChanBehavior.ok]
      = ([ChanBehavior.raised], none) := by
  decide

/-- No-raise channels are all attempted, in order, unchanged. -/
theorem attemptChannels_no_raise (l : List ChanBehavior)
    (h : ChanBehavior.raised ∉ l) : attemptChannels l = (l, false) := by
  induction l with
  | nil => rfl
  | cons c rest ih =>
    have hc : c ≠ ChanBehavior.raised := fun hh => h (hh ▸ List.mem_cons_self c rest)
    have hrest : ChanBehavior.raised ∉ rest := fun hh => h (List.mem_cons_of_mem c hh)
    simp [attemptChannels, hc, ih hrest]

/-- The first raising channel ends the dispatch loop. -/
theorem attemptChannels_raise (pre post : List ChanBehavior)
    (h : ChanBehavior.raised ∉ pre) :
    attemptChannels (pre ++ ChanBehavior.raised :: post)
      = (pre ++ [ChanBehavior.raised], true) := by
  induction pre with
  | nil => simp [attemptChannels]
  | cons c rest ih =>
    have hc : c ≠ ChanBehavior.raised := fun hh => h (hh ▸ List.mem_cons_self c rest)
    have hrest : ChanBehavior.raised ∉ rest := fun hh => h (List.mem_cons_of_mem c hh)
    simp [attemptChannels, hc, ih hrest]

/-- Claim C8 (amended): below the threshold, channels are attempted in
order; a channel whose send merely *returns* a failure value does not
affect later channels or the counter write, but a channel that *raises*
aborts the loop — later channels are not attempted — and the counter
write, living inside the same `try`, is skipped. -/
theorem dispatch_isolation_only_for_returned_failures (count : Nat)
    (channels : List ChanBehavior) (h : count < 2) :
    (ChanBehavior.raised ∉ channels
        → allDownBranch count channels = (channels, some (count + 1)))
      ∧ (∀ pre post, channels = pre ++ ChanBehavior.raised :: post
        → ChanBehavior.raised ∉ pre
        → allDownBranch count channels = (pre ++ [ChanBehavior.raised], none)) := by
  have hlt : ¬ count ≥ 2 := by omega
  constructor
  · intro hno
    simp [allDownBranch, hlt, attemptChannels_no_raise channels hno]
  · intro pre post hsplit hpre
    subst hsplit
    simp [allDownBranch, hlt, attemptChannels_raise pre post hpre]

/-- Concrete instance of `dispatch_isolation_only_for_returned_failures`:
with channels [sendFailed, ok] (a returned failure first) both channels
are attempted and the counter is written as 1; with [ok, raised, ok] the
loop stops at the raising channel and the counter is not written. -/
theorem dispatch_isolation_witness :
    (0 < 2)
      ∧ ChanBehavior.raised ∉ [ChanBehavior.sendFailed, ChanBehavior.ok]
      ∧ allDownBranch 0 [ChanBehavior.sendFailed, ChanBehavior.ok]
        = ([ChanBehavior.sendFailed, ChanBehavior.ok], some 1)
      ∧ allDownBranch 0 [ChanBehavior.ok, ChanBehavior.raised, ChanBehavior.ok]
        = ([ChanBehavior.ok, ChanBehavior.raised], none) :=
  ⟨by decide, by decide,
   (dispatch_isolation_only_for_returned_failures 0
     [ChanBehavior.sendFailed, ChanBehavior.ok] (by decide)).1 (by decide),
   (dispatch_isolation_only_for_returned_failures 0
     [ChanBehavior.ok, ChanBehavior.raised, ChanBehavior.ok] (by decide)).2
     [ChanBehavior.ok] [ChanBehavior.ok] (by decide) (by decide)⟩

/-- Outcome of the directory loop when file reads can fail: either the
writes performed over the whole directory, or the name of the file whose
read raised, together with the writes already performed before it. -/
inductive DirOutcome where
  | ok : List String → DirOutcome
  | ioError : String → List String → DirOutcome
deriving DecidableEq

/-- The `for filename in os.listdir` loop (lines 108-143) with fallible
reads: directory entries carry `none` when `open` would raise.  There is no
`try`/`except` around the loop body, so the first failing `.conf` read
raises out of the whole function; files already written stay written,
later files are never examined. -/
def processFilesE (reach : String → Bool) (nas ow : Option String) :
    List (String × Option (List Char)) → List String → DirOutcome
  | [], ws => .ok ws
  | (name, none) :: rest, ws =>
    if pyEndswith name ".conf" then .ioError name ws
    else processFilesE reach nas ow rest ws
  | (name, some conf) :: rest, ws =>
    if pyEndswith name ".conf" then
      processFilesE reach nas ow rest
        (ws ++ (if (check_file reach nas ow conf).changed then [name] else []))
    else processFilesE reach nas ow rest ws

/-- Files written over a directory listing, assuming all reads succeed. -/
def writesOf (reach : String → Bool) (nas ow : Option String) :
    List (String × Option (List Char)) → List String
  | [] => []
  | (_, none) :: rest => writesOf reach nas ow rest
  | (name, some conf) :: rest =>
    if pyEndswith name ".conf" then
      (if (check_file reach nas ow conf).changed then [name] else [])
        ++ writesOf reach nas ow rest
    else writesOf reach nas ow rest

/-- Claim C9 (counterexample): a directory whose first `.conf` file is
unreadable aborts the whole reconciliation — the second file, which a run
on it alone shows would have been rewritten and written, is never
processed, and nothing is written. -/
theorem unreadable_file_aborts_directory_scan :
    processFilesE reach6 (some "10.0.0.5") (some "10.0.0.1")
        [("a.conf", none), ("b.conf", some conf6b)] []
      = .ioError "a.conf" []
      ∧ processFilesE reach6 (some "10.0.0.5") (some "10.0.0.1")
        [("b.conf", some conf6b)] []
      = .ok ["b.conf"] := by
  decide

/-- When every `.conf` entry is readable the loop completes with exactly
the writes of the listing. -/
theorem processFilesE_all_readable (reach : String → Bool)
    (nas ow : Option String) (files : List (String × Option (List Char)))
    (h : ∀ p ∈ files, pyEndswith p.1 ".conf" = true → p.2 ≠ none) :
    ∀ ws, processFilesE reach nas ow files ws
      = .ok (ws ++ writesOf reach nas ow files) := by
  induction files with
  | nil => intro ws; simp [processFilesE, writesOf]
  | cons p rest ih =>
    intro ws
    have hrest : ∀ q ∈ rest, pyEndswith q.1 ".conf" = true → q.2 ≠ none :=
      fun q hq => h q (List.mem_cons_of_mem p hq)
    rcases p with ⟨name, _ | conf⟩
    · have hnc : ¬ pyEndswith name ".conf" = true := by
        intro hc
        exact (h (name, none) (List.mem_cons_self _ _) hc) rfl
      simp [processFilesE, writesOf, hnc, ih hrest]
    · by_cases hc : pyEndswith name ".conf" = true <;>
        simp [processFilesE, writesOf, hc, ih hrest]

/-- The loop, run up to the first unreadable `.conf` entry, ends in the
uncaught read exception, with only the earlier files' writes performed. -/
theorem processFilesE_error_at_first_unreadable (reach : String → Bool)
    (nas ow : Option String) (bad : String)
    (post : List (String × Option (List Char)))
    (hbad : pyEndswith bad ".conf" = true) :
    ∀ (pre : List (String × Option (List Char))),
      (∀ p ∈ pre, pyEndswith p.1 ".conf" = true → p.2 ≠ none) →
      ∀ ws, processFilesE reach nas ow (pre ++ (bad, none) :: post) ws
        = .ioError bad (ws ++ writesOf reach nas ow pre) := by
  intro pre
  induction pre with
  | nil => intro _ ws; simp [processFilesE, writesOf, hbad]
  | cons p rest ih =>
    intro h ws
    have hrest : ∀ q ∈ rest, pyEndswith q.1 ".conf" = true → q.2 ≠ none :=
      fun q hq => h q (List.mem_cons_of_mem p hq)
    rcases p with ⟨name, _ | conf⟩
    · have hnc : ¬ pyEndswith name ".conf" = true := by
        intro hc
        exact (h (name, none) (List.mem_cons_self _ _) hc) rfl
      simp [processFilesE, writesOf, hnc, ih hrest]
    · by_cases hc : pyEndswith name ".conf" = true <;>
        simp [processFilesE, writesOf, hc, ih hrest]

/-- Claim C9 (amended): the directory loop has no per-file error handling.
If every `.conf` file is readable the whole listing is processed; with an
unreadable `.conf` file, files before it are processed (their rewrites
written) and the read exception then aborts the loop, so the failing file
and every file after it are not processed in that run. -/
theorem unreadable_file_ends_run_after_earlier_writes
    (reach : String → Bool) (nas ow : Option String)
    (pre post : List (String × Option (List Char))) (bad : String)
    (hpre : ∀ p ∈ pre, pyEndswith p.1 ".conf" = true → p.2 ≠ none)
    (hbad : pyEndswith bad ".conf" = true) :
    processFilesE reach nas ow (pre ++ (bad, none) :: post) []
      = .ioError bad (writesOf reach nas ow pre)
      ∧ processFilesE reach nas ow pre []
        = .ok (writesOf reach nas ow pre) := by
  constructor
  · have h := processFilesE_error_at_first_unreadable reach nas ow bad post
      hbad pre hpre []
    simpa using h
  · have h := processFilesE_all_readable reach nas ow pre hpre []
    simpa using h

/-- Concrete instance of `unreadable_file_ends_run_after_earlier_writes`:
a readable changed file before the unreadable one is written, the
unreadable file aborts, the file after it is never processed. -/
theorem unreadable_file_ends_run_witness :
    pyEndswith "bad.conf" ".conf" = true
      ∧ processFilesE reach6 (some "10.0.0.5") (some "10.0.0.1")
          [("a.conf", some conf6a), ("bad.conf", none), ("c.conf", some conf6b)] []
        = .ioError "bad.conf" ["a.conf"] :=
  ⟨by decide,
   (unreadable_file_ends_run_after_earlier_writes reach6
     (some "10.0.0.5") (some "10.0.0.1")
     [("a.conf", some conf6a)] [("c.conf", some conf6b)] "bad.conf"
     (by decide) (by decide)).1.trans (by decide)⟩

/-- Claim C7 (counterexample): with no candidates configured
(`NAS_IP` and `OPENWRT_IP` both unset, so `CANDIDATE_IP_LIST` is empty),
`main` does not abort before probing: the empty probe loop leaves
`all_unreachable` true, the run proceeds into the all-down notification
branch — dispatching (counter 0 below the threshold) and writing the
incremented counter — and then returns from that branch, contradicting a
fatal abort with a non-zero exit before any probing. -/
theorem missing_candidates_not_fatal :
    (server_ping_main (fun _ => false) none none ⟨true, 0⟩).allDownNotified
        = true
      ∧ (server_ping_main (fun _ => false) none none
          ⟨true, 0⟩).finalState.notifyCount = 1
      ∧ (server_ping_main (fun _ => false) none none ⟨true, 0⟩).reconciled
        = false := by
  decide

/-- Claim C7 (amended): the two missing-settings conditions are not fatal
and trigger no abort.  With no candidates, every run proceeds into the
all-down notification/counter logic (dispatch below the threshold, counter
incremented, no reconciliation); a missing or invalid config directory
makes `check_and_replace_nginx_proxy_ips_in_dir` log and return with no
writes, no reload and no notification.  Non-zero interpreter exits exist
but come from other causes — for instance an unreadable rule file on an UP
run raises an uncaught exception out of the directory loop (last
conjunct), and the email notifier's `load_env_config` raises `SystemExit`
past `except Exception` — not from the missing-settings checks the claim
describes. -/
theorem missing_configuration_never_fatal :
    (∀ (reach : String → Bool) (st : RunState),
        (server_ping_main reach none none st).reconciled = false
          ∧ ((server_ping_main reach none none st).allDownNotified = true
            ↔ st.notifyCount < 2)
          ∧ (server_ping_main reach none none st).finalState
            = ⟨false, st.notifyCount + 1⟩)
      ∧ (∀ (reach : String → Bool) (nas ow : Option String)
          (files : List (String × List Char)),
          check_and_replace_nginx_proxy_ips_in_dir reach nas ow false files
            = ⟨files, [], 0, none⟩)
      ∧ processFilesE reach6 (some "10.0.0.5") (some "10.0.0.1")
          [("broken.conf", none)] []
        = DirOutcome.ioError "broken.conf" [] := by
  refine ⟨fun reach st => ?_, fun reach nas ow files => rfl, by decide⟩
  by_cases h2 : st.notifyCount ≥ 2
  · simp [server_ping_main, CANDIDATE_IP_LIST, print_ip_reachability, h2]
  · simp [server_ping_main, CANDIDATE_IP_LIST, print_ip_reachability, h2]
    omega

end NASBridge
